import Mathlib

/-!
Verification of the BankNifty trading system's core logic: the trade
outcome evaluators (`backtest/backtest_v2.py`, `backtest/backtest_engine.py`,
`backtest/ai_filtered_backtest.py`), the indicator pipeline
(`strategy/indicators.py`), the VWAP pullback signal generator
(`strategy/vwap_strategy.py`), the AI decision filter (`ml/ai_filter_v2.py`)
and the live exit manager (`brain/live_exit_manager.py`), shallowly embedded
over rational prices and abstract timestamps.
-/

namespace BankNifty

/-- A timestamp: calendar date plus time of day, both encoded as naturals.
Mirrors a pandas datetime, from which the code derives the `date` column. -/
structure DT where
  date : Nat
  tod : Nat
deriving DecidableEq, Repr, Inhabited

/-- One OHLCV candle, as a row of the loaded DataFrame.
`opn` stands for the `open` column (a reserved word in Lean). -/
structure Bar where
  datetime : DT
  opn : ℚ
  high : ℚ
  low : ℚ
  close : ℚ
  volume : ℚ
deriving DecidableEq, Repr, Inhabited

/-- The derived `date` column: `df["date"] = df["datetime"].dt.date`. -/
def bdate (b : Bar) : Nat := b.datetime.date

/-- Trade direction, the `type` field of a trade dict: `"BUY"` or `"SELL"`. -/
inductive TType where
  | BUY
  | SELL
deriving DecidableEq, Repr

/-- A candidate trade as the strategies emit it (the fields the evaluators read). -/
structure TradeR where
  entry : ℚ
  stoploss : ℚ
  target : ℚ
  type : TType
  time : DT
  rr : ℚ
deriving DecidableEq, Repr

/-- Python `round` applied to an exact rational: round half to even. -/
def pyRoundInt (q : ℚ) : ℤ :=
  let f : ℤ := ⌊q⌋
  let r : ℚ := q - f
  if r < 1/2 then f
  else if 1/2 < r then f + 1
  else if f % 2 = 0 then f else f + 1

/-- `round(x, 2)`. -/
def round2 (q : ℚ) : ℚ := (pyRoundInt (q * 100) : ℚ) / 100

/-- `round(x, 3)`. -/
def round3 (q : ℚ) : ℚ := (pyRoundInt (q * 1000) : ℚ) / 1000

/-- First index whose element satisfies the predicate
(`df.index[df["datetime"] == entry_time].tolist()` picks index 0 of this list). -/
def findIdxA {α : Type} (p : α → Bool) : List α → Option Nat
  | [] => none
  | x :: xs => if p x then some 0 else (findIdxA p xs).map Nat.succ

/-- Index of the bar whose `datetime` equals `t`, if any. -/
def findTimeIdx (df : List Bar) (t : DT) : Option Nat :=
  findIdxA (fun b => b.datetime = t) df

namespace BacktestV2

/-- Outcome strings of `backtest_v2.evaluate_trade`. -/
inductive Outcome where
  | WIN
  | LOSS
  | EOD
  | TIMEOUT
  | SKIP
deriving DecidableEq, Repr

/-- The `{"result": ..., "pnl_r": ...}` dict returned by the evaluator. -/
structure EvalResult where
  result : Outcome
  pnl_r : ℚ
deriving DecidableEq, Repr

/-- The forward scan of `backtest_v2.evaluate_trade` (its `for i in
range(idx+1, end_idx)` loop) over the list of scanned bars, carrying the
close of the previous bar (`df.iloc[i-1]`).  Per bar: end-of-day check
first, then stop-loss, then target, in the source's order. -/
def scanV2 (entry sl target : ℚ) (ty : TType) (rr : ℚ) (entryDate : Nat) :
    List Bar → ℚ → EvalResult
  | [], _ => ⟨Outcome.TIMEOUT, 0⟩
  | c :: rest, prevClose =>
    if bdate c ≠ entryDate then
      let pnl : ℚ :=
        match ty with
        | TType.BUY => if entry ≠ sl then (prevClose - entry) / (entry - sl) else 0
        | TType.SELL => if sl ≠ entry then (entry - prevClose) / (sl - entry) else 0
      ⟨Outcome.EOD, round2 pnl⟩
    else
      match ty with
      | TType.BUY =>
        if c.low ≤ sl then ⟨Outcome.LOSS, -1⟩
        else if c.high ≥ target then ⟨Outcome.WIN, rr⟩
        else scanV2 entry sl target ty rr entryDate rest c.close
      | TType.SELL =>
        if c.high ≥ sl then ⟨Outcome.LOSS, -1⟩
        else if c.low ≤ target then ⟨Outcome.WIN, rr⟩
        else scanV2 entry sl target ty rr entryDate rest c.close

/-- `backtest_v2.evaluate_trade(df, trade, max_candles)`: locate the entry
bar by exact timestamp; if absent return `SKIP` with pnl 0; otherwise scan
bars `idx+1 .. min(idx+max_candles, len(df)) - 1`. -/
def evaluate_trade (df : List Bar) (trade : TradeR) (max_candles : Nat) : EvalResult :=
  match findTimeIdx df trade.time with
  | none => ⟨Outcome.SKIP, 0⟩
  | some idx =>
    match df[idx]? with
    | none => ⟨Outcome.SKIP, 0⟩
    | some entryBar =>
      let endIdx := min (idx + max_candles) df.length
      let scanned := (df.drop (idx + 1)).take (endIdx - (idx + 1))
      scanV2 trade.entry trade.stoploss trade.target trade.type trade.rr
        (bdate entryBar) scanned entryBar.close

end BacktestV2

namespace Engine

/-- Outcome strings of `BacktestEngine.evaluate_trade`: `"BE"` when neither
level is hit up to the end of the series. -/
inductive EngineResult where
  | WIN
  | LOSS
  | BE
deriving DecidableEq, Repr

/-- The scan loop of `BacktestEngine.evaluate_trade`: stop-loss checked
before target on every candle, no lookahead cap, no end-of-day exit. -/
def engineScan (sl target : ℚ) (ty : TType) : List Bar → EngineResult
  | [] => EngineResult.BE
  | c :: rest =>
    match ty with
    | TType.BUY =>
      if c.low ≤ sl then EngineResult.LOSS
      else if c.high ≥ target then EngineResult.WIN
      else engineScan sl target ty rest
    | TType.SELL =>
      if c.high ≥ sl then EngineResult.LOSS
      else if c.low ≤ target then EngineResult.WIN
      else engineScan sl target ty rest

/-- `BacktestEngine.evaluate_trade(df, start_index, trade)`. -/
def evaluate_trade (df : List Bar) (start_index : Nat) (t : TradeR) : EngineResult :=
  engineScan t.stoploss t.target t.type (df.drop (start_index + 1))

end Engine

namespace AIFiltered

/-- Outcome strings of `ai_filtered_backtest.evaluate_trade`: only `"WIN"`
and `"LOSS"` exist. -/
inductive AFBResult where
  | WIN
  | LOSS
deriving DecidableEq, Repr

/-- The scan loop of `ai_filtered_backtest.evaluate_trade`. -/
def afbScan (sl target : ℚ) (ty : TType) : List Bar → AFBResult
  | [] => AFBResult.LOSS
  | c :: rest =>
    match ty with
    | TType.BUY =>
      if c.low ≤ sl then AFBResult.LOSS
      else if c.high ≥ target then AFBResult.WIN
      else afbScan sl target ty rest
    | TType.SELL =>
      if c.high ≥ sl then AFBResult.LOSS
      else if c.low ≤ target then AFBResult.WIN
      else afbScan sl target ty rest

/-- `ai_filtered_backtest.evaluate_trade(df, trade)`: unmatched timestamp
returns `"LOSS"`; target derived from entry, stop and rr; scan capped at
`MAX_LOOKAHEAD` candles; exhaustion also returns `"LOSS"`. -/
def evaluate_trade (df : List Bar) (t : TradeR) (MAX_LOOKAHEAD : Nat) : AFBResult :=
  match findTimeIdx df t.time with
  | none => AFBResult.LOSS
  | some idx =>
    let target : ℚ :=
      match t.type with
      | TType.BUY => t.entry + (t.entry - t.stoploss) * t.rr
      | TType.SELL => t.entry - (t.stoploss - t.entry) * t.rr
    let endIdx := min (idx + MAX_LOOKAHEAD) df.length
    afbScan t.stoploss target t.type ((df.drop (idx + 1)).take (endIdx - (idx + 1)))

end AIFiltered

namespace Indicators

/-- Typical price: `df["tp"] = (high + low + close) / 3`. -/
def tp (b : Bar) : ℚ := (b.high + b.low + b.close) / 3

/-- The pipeline's session VWAP at row `i`:
`df.groupby("date")["tp"].expanding().mean()` realigned to the original
index, i.e. the mean of the typical prices of the rows up to and including
`i` that share row `i`'s calendar date. -/
def vwapAt (df : List Bar) (i : Nat) : ℚ :=
  let d := bdate (df.getD i default)
  let grp := ((df.take (i + 1)).filter (fun b => bdate b == d)).map tp
  grp.sum / (grp.length : ℚ)

/-- The rows of `df.groupby("date")` for a given date, in original order. -/
def barsOn (df : List Bar) (d : Nat) : List Bar :=
  df.filter (fun b => bdate b == d)

/-- `daily_high = ("high", "max")` for one group. -/
def dailyHigh (df : List Bar) (d : Nat) : ℚ :=
  match ((barsOn df d).map Bar.high) with
  | [] => 0
  | x :: xs => xs.foldl max x

/-- `daily_low = ("low", "min")` for one group. -/
def dailyLow (df : List Bar) (d : Nat) : ℚ :=
  match ((barsOn df d).map Bar.low) with
  | [] => 0
  | x :: xs => xs.foldl min x

/-- `daily_close = ("close", "last")` for one group. -/
def dailyClose (df : List Bar) (d : Nat) : ℚ :=
  ((barsOn df d).map Bar.close).getLastD 0

/-- One row of pivot columns. -/
structure PivotRow where
  pivot : ℚ
  r1 : ℚ
  r2 : ℚ
  s1 : ℚ
  s2 : ℚ
deriving DecidableEq, Repr

/-- The pivot formulas applied to one day's aggregates, as computed on the
`daily` frame: `P=(H+L+C)/3, R1=2P-L, R2=P+(H-L), S1=2P-H, S2=P-(H-L)`. -/
def pivotOfHLC (H L C : ℚ) : PivotRow :=
  let P := (H + L + C) / 3
  ⟨P, 2 * P - L, P + (H - L), 2 * P - H, P - (H - L)⟩

/-- The sorted unique dates indexing the `daily = df.groupby("date").agg(...)`
frame (pandas sorts group keys ascending). -/
def uniqueSortedDates (df : List Bar) : List Nat :=
  List.insertionSort (· ≤ ·) (df.map bdate).dedup

/-- The pivot row merged onto a bar with date `d`:
`daily[["pivot", ...]].shift(1)` moves each sorted-date row's pivots to the
next date, then `df.merge(..., left_on="date", right_index=True)` looks the
bar's date up in that shifted frame.  The first session (and an absent
date) gets NaN, modelled as `none`. -/
def attachedPivot (df : List Bar) (d : Nat) : Option PivotRow :=
  let ds := uniqueSortedDates df
  match findIdxA (fun e => e == d) ds with
  | none => none
  | some 0 => none
  | some (Nat.succ k) =>
    let dprev := ds.getD k 0
    some (pivotOfHLC (dailyHigh df dprev) (dailyLow df dprev) (dailyClose df dprev))

end Indicators

namespace VWAPStrategy

/-- Inclusive prefix sums (`Series.cumsum`). -/
def cumsum : List ℚ → ℚ → List ℚ
  | [], _ => []
  | x :: xs, acc => (acc + x) :: cumsum xs (acc + x)

/-- `VWAPPullbackStrategy.calculate_vwap`: `(tp * volume).cumsum() /
volume.cumsum()`, a cumulative volume-weighted mean over the whole frame
(note: no session grouping). -/
def calculate_vwap (df : List Bar) : List ℚ :=
  List.zipWith (fun a b => a / b)
    (cumsum (df.map (fun b => Indicators.tp b * b.volume)) 0)
    (cumsum (df.map Bar.volume) 0)

/-- A signal dict emitted by `generate_signals`. -/
structure Signal where
  type : TType
  entry : ℚ
  stoploss : ℚ
  target : ℚ
  rr : ℚ
  time : DT
deriving DecidableEq, Repr

/-- Consecutive pairs `(df.iloc[i-1], df.iloc[i])` for `i = 1 .. len-1`. -/
def consecPairs {α : Type} : List α → List (α × α)
  | [] => []
  | [_] => []
  | a :: b :: rest => (a, b) :: consecPairs (b :: rest)

/-- The body of `VWAPPullbackStrategy.generate_signals`: iterate over
`(prev, curr)` rows (each paired with its `vwap` column value), carrying
`self.trade_count`; break once the count reaches `max_trades_per_day`;
skip doji candles; on a BUY or SELL setup append one signal per entry of
`rr_list` and increment the count by one. -/
def vwapLoop (maxT : Nat) (rrList : List ℚ) :
    List ((Bar × ℚ) × (Bar × ℚ)) → Nat → List Signal
  | [], _ => []
  | ((prev, pvwap), (curr, cvwap)) :: rest, count =>
    if maxT ≤ count then []
    else
      let body := |curr.close - curr.opn|
      let range := curr.high - curr.low
      if range = 0 ∨ body / range < 3/10 then vwapLoop maxT rrList rest count
      else if curr.close > cvwap ∧ prev.low ≤ pvwap ∧ curr.close > curr.opn then
        let entry := curr.high
        let sl := curr.low
        if entry ≤ sl then vwapLoop maxT rrList rest count
        else
          (rrList.map (fun rr =>
            Signal.mk TType.BUY (round2 entry) (round2 sl)
              (round2 (entry + (entry - sl) * rr)) rr curr.datetime)) ++
          vwapLoop maxT rrList rest (count + 1)
      else if curr.close < cvwap ∧ prev.high ≥ pvwap ∧ curr.close < curr.opn then
        let entry := curr.low
        let sl := curr.high
        if sl ≤ entry then vwapLoop maxT rrList rest count
        else
          (rrList.map (fun rr =>
            Signal.mk TType.SELL (round2 entry) (round2 sl)
              (round2 (entry - (sl - entry) * rr)) rr curr.datetime)) ++
          vwapLoop maxT rrList rest (count + 1)
      else vwapLoop maxT rrList rest count

/-- `VWAPPullbackStrategy(max_trades_per_day, rr_list).generate_signals(df)`
on a freshly constructed instance (`self.trade_count = 0`). -/
def generate_signals (maxT : Nat) (rrList : List ℚ) (df : List Bar) : List Signal :=
  vwapLoop maxT rrList (consecPairs (df.zip (calculate_vwap df))) 0

/-- Number of emitted signals whose timestamp falls on calendar day `d`. -/
def signalsOnDay (sigs : List Signal) (d : Nat) : Nat :=
  (sigs.filter (fun s => s.time.date == d)).length

end VWAPStrategy

namespace AIFilterV2

/-- The `decision` field: `"TAKE"` or `"SKIP"`. -/
inductive DecisionT where
  | TAKE
  | SKIP
deriving DecidableEq, Repr

/-- The `confidence` field. -/
inductive Confidence where
  | HIGH
  | MEDIUM
  | LOW
  | NO_MODEL
deriving DecidableEq, Repr

/-- The dict returned by `ai_filter_v2`. -/
structure FilterResult where
  decision : DecisionT
  probability : ℚ
  threshold : ℚ
  confidence : Confidence
deriving DecidableEq, Repr

/-- `STRATEGY_THRESHOLDS` from `ml/ai_filter_v2.py`. -/
def STRATEGY_THRESHOLDS : List (String × ℚ) :=
  [("ORB", 45/100), ("EMA_SCALP", 42/100), ("VWAP_REVERSION", 42/100),
   ("MOMENTUM_SURGE", 44/100), ("PIVOT_SCALP", 48/100)]

/-- `DEFAULT_THRESHOLD = 0.50`, used for strategies absent from the table. -/
def DEFAULT_THRESHOLD : ℚ := 1/2

/-- `ai_filter_v2(trade)`.  The external model is abstracted as the
probability it would output for this trade: `none` models the
model-file-missing case (`model is None`), where the source returns
`TAKE` / 0.55 / 0.50 / `"NO_MODEL"` without consulting any oracle. -/
def ai_filter_v2 (modelProb : Option ℚ) (strategy : String) : FilterResult :=
  match modelProb with
  | none => ⟨DecisionT.TAKE, 55/100, 1/2, Confidence.NO_MODEL⟩
  | some prob =>
    let threshold := (STRATEGY_THRESHOLDS.lookup strategy).getD DEFAULT_THRESHOLD
    let decision := if prob ≥ threshold then DecisionT.TAKE else DecisionT.SKIP
    let confidence :=
      if prob ≥ threshold + 15/100 then Confidence.HIGH
      else if prob ≥ threshold + 5/100 then Confidence.MEDIUM
      else Confidence.LOW
    ⟨decision, round3 prob, threshold, confidence⟩

end AIFilterV2

namespace LiveExit

/-- The fields of an active trade that `update_live_exits` reads or writes. -/
structure LTrade where
  strategy : String
  entry : ℚ
  stoploss : ℚ
  type : TType
deriving DecidableEq, Repr

/-- The per-trade stop adjustment of `update_live_exits`: `sl` is read once
at the top of the iteration; the breakeven move rewrites the stored stop
when `move > atr`, and the trailing stop overwrites it again when
`move > atr * 2`. -/
def adjustSL (lastPrice atr : ℚ) (t : LTrade) : LTrade :=
  let sl := t.stoploss
  let move := |lastPrice - t.entry|
  let sl1 :=
    if move > atr then
      match t.type with
      | TType.BUY => max sl t.entry
      | TType.SELL => min sl t.entry
    else sl
  let sl2 :=
    if move > atr * 2 then
      match t.type with
      | TType.BUY => lastPrice - atr
      | TType.SELL => lastPrice + atr
    else sl1
  { t with stoploss := sl2 }

/-- The exit test of `update_live_exits`, applied to the (already adjusted)
stored stop: a BUY exits when `last_price <= stoploss`, anything else when
`last_price >= stoploss`. -/
def exitCond (lastPrice : ℚ) (t : LTrade) : Bool :=
  match t.type with
  | TType.BUY => lastPrice ≤ t.stoploss
  | TType.SELL => lastPrice ≥ t.stoploss

/-- `update_live_exits(df)` acting on the `active_trades` registry (an
insertion-ordered dict, modelled as a key/trade list).  `lastClose` and
`atr?` are `df.iloc[-1]["close"]` and `df.iloc[-1]["atr"]`; when the ATR is
`None` every iteration hits `continue` and the registry is untouched.
Otherwise each stored trade is mutated by the stop adjustments, keys
failing the exit test are collected in `to_remove`, and those keys are
deleted after the loop. -/
def update_live_exits (lastClose : ℚ) (atr? : Option ℚ)
    (reg : List (String × LTrade)) : List (String × LTrade) :=
  match atr? with
  | none => reg
  | some atr =>
    let processed := reg.map (fun p => (p.1, adjustSL lastClose atr p.2))
    let toRemove := (processed.filter (fun p => exitCond lastClose p.2)).map Prod.fst
    processed.filter (fun p => decide (p.1 ∉ toRemove))

end LiveExit

/-! Concrete bar series and trades used to witness the theorems and to
exhibit diverging runs of the program. -/

/-- A bar on day `d` at time-of-day `t` with unit volume. -/
def mkBar (d t : Nat) (o h l c : ℚ) : Bar :=
  ⟨⟨d, t⟩, o, h, l, c, 1⟩

/-- A bar whose range touches both a stop at 100 and a target at 100. -/
def barBoth : Bar := mkBar 0 1 100 101 99 100

/-- Two bars on day 0; no bar has timestamp `(5, 5)`. -/
def dfC2 : List Bar := [mkBar 0 0 100 101 99 100, mkBar 0 1 100 101 99 100]

/-- A trade whose signal timestamp matches no bar of `dfC2`. -/
def tC2 : TradeR := ⟨100, 99, 105, TType.BUY, ⟨5, 5⟩, 2⟩

/-- Entry bar plus one flat bar: low 100 stays above the stop 99 and
high 101 stays below the derived target 102, so the scan exhausts. -/
def dfC3 : List Bar := [mkBar 0 0 100 100 100 100, mkBar 0 1 100 101 100 100]

/-- BUY at 100 with stop 99 and rr 2 (derived target 102), entering at
the first bar of `dfC3`. -/
def tC3 : TradeR := ⟨100, 99, 102, TType.BUY, ⟨0, 0⟩, 2⟩

/-- A winning run for the amended pnl theorem: target 104 is hit. -/
def dfC3w : List Bar := [mkBar 0 0 100 102 99 101, mkBar 0 1 101 105 100 104]

/-- BUY entering at the first bar of `dfC3w`, stop 99, target 104, rr 3. -/
def tC3w : TradeR := ⟨101, 99, 104, TType.BUY, ⟨0, 0⟩, 3⟩

/-- Entry bar closing at 104, then a bar of the next session. -/
def dfC4 : List Bar := [mkBar 0 0 100 104 100 104, mkBar 1 0 100 104 100 104]

/-- BUY entry 103, stop 100: the end-of-day pnl is `(104-103)/(103-100) = 1/3`. -/
def tC4 : TradeR := ⟨103, 100, 200, TType.BUY, ⟨0, 0⟩, 2⟩

/-- The next-session bar of `dfC4`, used to witness the per-bar statement. -/
def barC4 : Bar := mkBar 1 0 100 104 100 104

/-- Entry bar, then a bar whose low 99 touches the stop 99. -/
def dfC5 : List Bar := [mkBar 0 0 100 100 100 100, mkBar 0 1 100 100 99 100]

/-- BUY entering at the first bar of `dfC5`; its true outcome (stop hit)
occurs one bar after the entry index. -/
def tC5 : TradeR := ⟨100, 99, 101, TType.BUY, ⟨0, 0⟩, 2⟩

/-- `dfC5` with one extra trailing bar, so a cap of 2 is a strict cap. -/
def dfC5w : List Bar :=
  [mkBar 0 0 100 100 100 100, mkBar 0 1 100 100 99 100, mkBar 0 2 100 100 100 100]

/-- Two bars on day 0 and one on day 1. -/
def dfC6 : List Bar :=
  [mkBar 0 0 100 102 99 101, mkBar 0 1 101 105 100 104, mkBar 1 0 104 110 103 106]

/-- Two sessions: day 0 with high 105 / low 99 / last close 104, then day 1. -/
def dfC7 : List Bar :=
  [mkBar 0 0 100 102 99 101, mkBar 0 1 101 105 100 104, mkBar 1 0 104 110 103 106]

/-- A bar of session 1 of `dfC7`. -/
def barC7 : Bar := mkBar 1 0 104 110 103 106

/-- One session with two qualifying VWAP-pullback BUY setups (bars 1 and 3)
separated by a doji bar that the body filter skips. -/
def dfC8 : List Bar :=
  [mkBar 0 0 100 101 99 100, mkBar 0 1 100 110 98 108,
   mkBar 0 2 104 105 95 104, mkBar 0 3 103 112 101 111]

/-- A registered BUY trade: entry 100, stop 98. -/
def regC10 : List (String × LiveExit.LTrade) :=
  [("ORB_100", ⟨"ORB", 100, 98, TType.BUY⟩)]

/-- C1: on every bar the trade evaluators (`backtest_v2.evaluate_trade`
and `BacktestEngine.evaluate_trade`) check the stop-loss condition before
the target condition, so a scanned bar that touches both the stop and the
target is scored LOSS, never WIN: for a BUY/LONG trade `low ≤ stop` is
decided first, and mirrored for SELL/SHORT `high ≥ stop` is decided first. -/
theorem c1_stop_checked_before_target
    (entry sl target rr prevClose : ℚ) (entryDate : Nat) (b : Bar)
    (rest : List Bar) (hdate : bdate b = entryDate) :
    (b.low ≤ sl → b.high ≥ target →
      BacktestV2.scanV2 entry sl target TType.BUY rr entryDate (b :: rest) prevClose
        = ⟨BacktestV2.Outcome.LOSS, -1⟩) ∧
    (b.high ≥ sl → b.low ≤ target →
      BacktestV2.scanV2 entry sl target TType.SELL rr entryDate (b :: rest) prevClose
        = ⟨BacktestV2.Outcome.LOSS, -1⟩) ∧
    (b.low ≤ sl → b.high ≥ target →
      Engine.engineScan sl target TType.BUY (b :: rest) = Engine.EngineResult.LOSS) ∧
    (b.high ≥ sl → b.low ≤ target →
      Engine.engineScan sl target TType.SELL (b :: rest) = Engine.EngineResult.LOSS) := by
  refine ⟨fun h1 _ => ?_, fun h1 _ => ?_, fun h1 _ => ?_, fun h1 _ => ?_⟩ <;>
    simp [BacktestV2.scanV2, Engine.engineScan, hdate, h1]

/-- Witness for C1 at a concrete bar touching stop 100 and target 100. -/
theorem c1_witness :
    (BacktestV2.scanV2 100 100 100 TType.BUY 2 0 [barBoth] 100
      = ⟨BacktestV2.Outcome.LOSS, -1⟩) ∧
    (BacktestV2.scanV2 100 100 100 TType.SELL 2 0 [barBoth] 100
      = ⟨BacktestV2.Outcome.LOSS, -1⟩) ∧
    (Engine.engineScan 100 100 TType.BUY [barBoth] = Engine.EngineResult.LOSS) ∧
    (Engine.engineScan 100 100 TType.SELL [barBoth] = Engine.EngineResult.LOSS) := by
  have h := c1_stop_checked_before_target 100 100 100 2 100 0 barBoth [] (by decide)
  exact ⟨h.1 (by decide) (by decide), h.2.1 (by decide) (by decide),
    h.2.2.1 (by decide) (by decide), h.2.2.2 (by decide) (by decide)⟩

/-- C2 (code bug): a trade whose signal timestamp matches no bar is scored
`"LOSS"` by `ai_filtered_backtest.evaluate_trade` and `"SKIP"` by
`backtest_v2.evaluate_trade`; no evaluator surfaces the distinct TIMEOUT
diagnostic the spec requires, and the AI-filtered variant silently folds
the data-alignment error into LOSS. -/
theorem c2_unmatched_timestamp_scored_loss :
    findTimeIdx dfC2 tC2.time = none ∧
    AIFiltered.evaluate_trade dfC2 tC2 60 = AIFiltered.AFBResult.LOSS ∧
    BacktestV2.evaluate_trade dfC2 tC2 60 = ⟨BacktestV2.Outcome.SKIP, 0⟩ := by
  decide

/-- On every scanned suffix, the `backtest_v2` scan pays `rr` on WIN,
`-1` on LOSS and `0` on TIMEOUT. -/
theorem scanV2_pnl_cases (entry sl target : ℚ) (ty : TType) (rr : ℚ) (d : Nat) :
    ∀ (l : List Bar) (pc : ℚ),
      ((BacktestV2.scanV2 entry sl target ty rr d l pc).result = BacktestV2.Outcome.WIN →
        (BacktestV2.scanV2 entry sl target ty rr d l pc).pnl_r = rr) ∧
      ((BacktestV2.scanV2 entry sl target ty rr d l pc).result = BacktestV2.Outcome.LOSS →
        (BacktestV2.scanV2 entry sl target ty rr d l pc).pnl_r = -1) ∧
      ((BacktestV2.scanV2 entry sl target ty rr d l pc).result = BacktestV2.Outcome.TIMEOUT →
        (BacktestV2.scanV2 entry sl target ty rr d l pc).pnl_r = 0) := by
  intro l
  induction l with
  | nil => intro pc; refine ⟨?_, ?_, ?_⟩ <;> simp [BacktestV2.scanV2]
  | cons c rest ih =>
    intro pc
    by_cases hd : bdate c ≠ d
    · refine ⟨?_, ?_, ?_⟩ <;> simp [BacktestV2.scanV2, hd]
    · cases ty with
      | BUY =>
        by_cases h1 : c.low ≤ sl
        · refine ⟨?_, ?_, ?_⟩ <;> simp [BacktestV2.scanV2, hd, h1]
        · by_cases h2 : c.high ≥ target
          · refine ⟨?_, ?_, ?_⟩ <;> simp [BacktestV2.scanV2, hd, h1, h2]
          · simpa [BacktestV2.scanV2, hd, h1, h2] using ih c.close
      | SELL =>
        by_cases h1 : c.high ≥ sl
        · refine ⟨?_, ?_, ?_⟩ <;> simp [BacktestV2.scanV2, hd, h1]
        · by_cases h2 : c.low ≤ target
          · refine ⟨?_, ?_, ?_⟩ <;> simp [BacktestV2.scanV2, hd, h1, h2]
          · simpa [BacktestV2.scanV2, hd, h1, h2] using ih c.close

/-- C3 (amended): in `backtest_v2.evaluate_trade`, pnl in risk units is the
trade's `rr` when the outcome is WIN, `-1` when it is LOSS, and `0` when the
scan exhausts `max_candles` (outcome TIMEOUT).  The original claim extends
this to every evaluator; `ai_filtered_backtest.evaluate_trade` instead
returns `"LOSS"` on scan exhaustion (see the counterexample). -/
theorem c3_pnl_in_risk_units (df : List Bar) (t : TradeR) (m : Nat) :
    ((BacktestV2.evaluate_trade df t m).result = BacktestV2.Outcome.WIN →
      (BacktestV2.evaluate_trade df t m).pnl_r = t.rr) ∧
    ((BacktestV2.evaluate_trade df t m).result = BacktestV2.Outcome.LOSS →
      (BacktestV2.evaluate_trade df t m).pnl_r = -1) ∧
    ((BacktestV2.evaluate_trade df t m).result = BacktestV2.Outcome.TIMEOUT →
      (BacktestV2.evaluate_trade df t m).pnl_r = 0) := by
  cases hf : findTimeIdx df t.time with
  | none => refine ⟨?_, ?_, ?_⟩ <;> simp [BacktestV2.evaluate_trade, hf]
  | some idx =>
    cases hg : df[idx]? with
    | none => refine ⟨?_, ?_, ?_⟩ <;> simp [BacktestV2.evaluate_trade, hf, hg]
    | some eb =>
      simpa only [BacktestV2.evaluate_trade, hf, hg] using
        scanV2_pnl_cases t.entry t.stoploss t.target t.type t.rr (bdate eb) _ _

/-- C3 counterexample: on `dfC3` the trade `tC3` is matched at index 0, the
single scanned bar stays inside the session and triggers neither the stop
nor the derived target, so the scan exhausts the lookahead — yet
`ai_filtered_backtest.evaluate_trade` scores the trade `"LOSS"`, not a
zero-pnl TIMEOUT. -/
theorem c3_counterexample :
    findTimeIdx dfC3 tC3.time = some 0 ∧
    ¬((dfC3.getD 1 default).low ≤ tC3.stoploss) ∧
    ¬((dfC3.getD 1 default).high ≥ tC3.entry + (tC3.entry - tC3.stoploss) * tC3.rr) ∧
    bdate (dfC3.getD 1 default) = bdate (dfC3.getD 0 default) ∧
    AIFiltered.evaluate_trade dfC3 tC3 60 = AIFiltered.AFBResult.LOSS := by
  refine ⟨by decide, by norm_num [dfC3, tC3, mkBar], by norm_num [dfC3, tC3, mkBar],
    by decide, ?_⟩
  norm_num [AIFiltered.evaluate_trade, AIFiltered.afbScan, dfC3, tC3, mkBar,
    findTimeIdx, findIdxA, bdate]

/-- Witness for C3 at a concrete winning trade. -/
theorem c3_witness : (BacktestV2.evaluate_trade dfC3w tC3w 60).pnl_r = tC3w.rr :=
  (c3_pnl_in_risk_units dfC3w tC3w 60).1 (by decide)

/-- C4 counterexample: on `dfC4`, the session boundary closes `tC4` at the
previous bar's close 104, but the evaluator stores the pnl rounded to two
decimals (`round(pnl, 2)`), `0.33`, which differs from the exact quotient
`(104 - 103)/(103 - 100) = 1/3` asserted by the claim. -/
theorem c4_counterexample :
    BacktestV2.evaluate_trade dfC4 tC4 60 = ⟨BacktestV2.Outcome.EOD, 33/100⟩ ∧
    (33/100 : ℚ) ≠ (104 - 103) / ((103 : ℚ) - 100) := by
  constructor
  · norm_num [BacktestV2.evaluate_trade, BacktestV2.scanV2, round2, pyRoundInt,
      dfC4, tC4, mkBar, findTimeIdx, findIdxA, bdate]
  · norm_num

/-- C4 (amended): under the end-of-day policy, when the scan reaches a bar
of a different session than the entry bar, `backtest_v2.evaluate_trade`
stops there with outcome `EOD` (END_OF_PERIOD) and pnl equal to
`(prevClose - entry)/(entry - stop)` for BUY — mirrored for SELL —
*rounded to two decimal places*, and `0` when `entry = stop`. -/
theorem c4_eod_closes_at_prev_close (entry sl target rr prevClose : ℚ)
    (entryDate : Nat) (b : Bar) (rest : List Bar) (h : bdate b ≠ entryDate) :
    (BacktestV2.scanV2 entry sl target TType.BUY rr entryDate (b :: rest) prevClose
      = ⟨BacktestV2.Outcome.EOD,
          round2 (if entry ≠ sl then (prevClose - entry) / (entry - sl) else 0)⟩) ∧
    (BacktestV2.scanV2 entry sl target TType.SELL rr entryDate (b :: rest) prevClose
      = ⟨BacktestV2.Outcome.EOD,
          round2 (if sl ≠ entry then (entry - prevClose) / (sl - entry) else 0)⟩) := by
  constructor <;> simp [BacktestV2.scanV2, h]

/-- Witness for C4 at the concrete next-session bar of `dfC4`. -/
theorem c4_witness :
    BacktestV2.scanV2 103 100 200 TType.BUY 2 0 [barC4] 104
      = ⟨BacktestV2.Outcome.EOD,
          round2 (if (103 : ℚ) ≠ 100 then (104 - 103) / (103 - 100) else 0)⟩ :=
  (c4_eod_closes_at_prev_close 103 100 200 2 104 0 barC4 [] (by decide)).1

/-- Once the `backtest_v2` scan has reached a decisive outcome on a list of
bars, scanning any extension of that list returns the same result. -/
theorem scanV2_append_of_decided (entry sl target : ℚ) (ty : TType) (rr : ℚ) (d : Nat) :
    ∀ (l l2 : List Bar) (pc : ℚ),
      (BacktestV2.scanV2 entry sl target ty rr d l pc).result ≠ BacktestV2.Outcome.TIMEOUT →
      BacktestV2.scanV2 entry sl target ty rr d (l ++ l2) pc
        = BacktestV2.scanV2 entry sl target ty rr d l pc := by
  intro l
  induction l with
  | nil => intro l2 pc h; simp [BacktestV2.scanV2] at h
  | cons c rest ih =>
    intro l2 pc h
    by_cases hd : bdate c ≠ d
    · simp [BacktestV2.scanV2, hd]
    · cases ty with
      | BUY =>
        by_cases h1 : c.low ≤ sl
        · simp [BacktestV2.scanV2, hd, h1]
        · by_cases h2 : c.high ≥ target
          · simp [BacktestV2.scanV2, hd, h1, h2]
          · simp only [BacktestV2.scanV2, hd, h1, h2] at h ⊢
            exact ih l2 c.close h
      | SELL =>
        by_cases h1 : c.high ≥ sl
        · simp [BacktestV2.scanV2, hd, h1]
        · by_cases h2 : c.low ≤ target
          · simp [BacktestV2.scanV2, hd, h1, h2]
          · simp only [BacktestV2.scanV2, hd, h1, h2] at h ⊢
            exact ih l2 c.close h

/-- C5 counterexample: `tC5`'s true outcome (its stop is touched by the bar
one position after the entry index, as the unbounded run confirms) occurs
within `N = 1` bars of the entry index, yet evaluating with
`max_candles = 1` scans `range(idx+1, idx+1)` — no bars at all — and
returns TIMEOUT instead of that outcome. -/
theorem c5_counterexample :
    (BacktestV2.evaluate_trade dfC5 tC5 2).result = BacktestV2.Outcome.LOSS ∧
    BacktestV2.evaluate_trade dfC5 tC5 1 = ⟨BacktestV2.Outcome.TIMEOUT, 0⟩ ∧
    dfC5.length = 2 ∧
    findTimeIdx dfC5 tC5.time = some 0 ∧
    (dfC5.getD 1 default).low ≤ tC5.stoploss := by
  decide

/-- C5 (amended): whenever the capped evaluation already reaches a decisive
outcome — equivalently, whenever the trade's true outcome occurs within
`N - 1` bars after the entry index, the bars `range(idx+1, idx+N)` actually
scans — `backtest_v2.evaluate_trade` with `max_candles = N` agrees exactly
with the unbounded scan to the end of the series. -/
theorem c5_lookahead_cap_equiv (df : List Bar) (t : TradeR) (N : Nat)
    (h : (BacktestV2.evaluate_trade df t N).result ≠ BacktestV2.Outcome.TIMEOUT) :
    BacktestV2.evaluate_trade df t N = BacktestV2.evaluate_trade df t df.length := by
  cases hf : findTimeIdx df t.time with
  | none => simp [BacktestV2.evaluate_trade, hf]
  | some idx =>
    cases hg : df[idx]? with
    | none => simp [BacktestV2.evaluate_trade, hf, hg]
    | some eb =>
      simp only [BacktestV2.evaluate_trade, hf, hg] at h ⊢
      have htakefull :
          (df.drop (idx + 1)).take (min (idx + df.length) df.length - (idx + 1))
            = df.drop (idx + 1) := by
        apply List.take_of_length_le
        simp only [List.length_drop]
        omega
      rw [htakefull]
      conv_rhs =>
        rw [← List.take_append_drop (min (idx + N) df.length - (idx + 1)) (df.drop (idx + 1))]
      exact (scanV2_append_of_decided t.entry t.stoploss t.target t.type t.rr
        (bdate eb) _ _ eb.close h).symm

/-- Witness for C5: a decisive capped run on a three-bar series. -/
theorem c5_witness :
    BacktestV2.evaluate_trade dfC5w tC5 2 = BacktestV2.evaluate_trade dfC5w tC5 dfC5w.length :=
  c5_lookahead_cap_equiv dfC5w tC5 2 (by decide)

/-- A prefix all of whose positions fail a predicate filters to nil. -/
theorem filter_take_eq_nil {α : Type} [Inhabited α] (p : α → Bool) :
    ∀ (l : List α) (i : Nat),
      (∀ j, j < i → p (l.getD j default) = false) → (l.take i).filter p = [] := by
  intro l
  induction l with
  | nil => intro i _; simp
  | cons x xs ih =>
    intro i h
    cases i with
    | zero => simp
    | succ k =>
      have hx : p x = false := h 0 (Nat.succ_pos k)
      simp only [List.take_succ_cons, List.filter_cons, hx, Bool.false_eq_true, if_false]
      exact ih k (fun j hj => h (j + 1) (Nat.succ_lt_succ hj))

/-- C6: the indicator pipeline's session VWAP
(`df.groupby("date")["tp"].expanding().mean()`) at the first bar of a
trading session — a row no earlier row shares a calendar date with —
equals that bar's typical price `(high+low+close)/3` exactly: the
per-session grouping carries no accumulated state across sessions. -/
theorem c6_vwap_session_reset (df : List Bar) (i : Nat) (hi : i < df.length)
    (hfirst : ∀ j, j < i → bdate (df.getD j default) ≠ bdate (df.getD i default)) :
    Indicators.vwapAt df i = Indicators.tp (df.getD i default) := by
  have hdg : df.getD i default = df[i] := List.getD_eq_getElem df default hi
  have htake : df.take (i + 1) = df.take i ++ [df[i]] := by
    rw [List.take_succ, List.getElem?_eq_getElem hi]
    rfl
  have hnil : (df.take i).filter (fun b => bdate b == bdate df[i]) = [] := by
    apply filter_take_eq_nil
    intro j hj
    have := hfirst j hj
    rw [hdg] at this
    simpa using this
  unfold Indicators.vwapAt
  rw [hdg]
  simp only [htake, List.filter_append, hnil, List.nil_append, List.filter_cons]
  simp

/-- Witness for C6: the first bar of the second session of `dfC6`. -/
theorem c6_witness : Indicators.vwapAt dfC6 2 = Indicators.tp (dfC6.getD 2 default) :=
  c6_vwap_session_reset dfC6 2 (by decide) (by decide)

/-- On a list without duplicates, `findIdxA` of an equality test recovers
the unique index of an element. -/
theorem findIdxA_of_getElem_nodup :
    ∀ (l : List Nat), l.Nodup → ∀ (i x : Nat), l[i]? = some x →
      findIdxA (fun e => e == x) l = some i := by
  intro l
  induction l with
  | nil => intro _ i x h; simp at h
  | cons y ys ih =>
    intro hn i x h
    cases i with
    | zero =>
      rw [List.getElem?_cons_zero] at h
      obtain rfl : y = x := by injection h
      simp [findIdxA]
    | succ k =>
      rw [List.getElem?_cons_succ] at h
      have hmem : x ∈ ys := List.getElem?_mem h
      have hyx : (y == x) = false :=
        beq_eq_false_iff_ne.mpr (fun he => (List.nodup_cons.mp hn).1 (he ▸ hmem))
      simp [findIdxA, hyx, ih (List.nodup_cons.mp hn).2 k x h]

/-- Membership in the sorted unique date index of the `daily` frame. -/
theorem uniqueSortedDates_mem (df : List Bar) (x : Nat) :
    x ∈ Indicators.uniqueSortedDates df ↔ x ∈ df.map bdate := by
  unfold Indicators.uniqueSortedDates
  rw [(List.perm_insertionSort _ _).mem_iff, List.mem_dedup]

/-- The date index of the `daily` frame is sorted ascending. -/
theorem uniqueSortedDates_sorted (df : List Bar) :
    List.Sorted (· ≤ ·) (Indicators.uniqueSortedDates df) :=
  List.sorted_insertionSort _ _

/-- The date index of the `daily` frame has no duplicates. -/
theorem uniqueSortedDates_nodup (df : List Bar) :
    (Indicators.uniqueSortedDates df).Nodup :=
  (List.perm_insertionSort _ _).nodup_iff.mpr (List.nodup_dedup _)

/-- C7: for every bar series and every bar `b` whose session has a
preceding session `dp` (a date occurring in the series, smaller than `b`'s
date, and maximal among such dates), the pivot row the indicator pipeline
merges onto `b`'s session is exactly the pivot formulas applied to session
`dp`'s high/low/close aggregates — the shift-by-one-session semantics:
never the current session's own aggregates. -/
theorem c7_pivots_from_previous_session (df : List Bar) (b : Bar) (hb : b ∈ df)
    (dp : Nat) (hdp : dp ∈ df.map bdate) (hlt : dp < bdate b)
    (hmax : ∀ e ∈ df.map bdate, e < bdate b → e ≤ dp) :
    Indicators.attachedPivot df (bdate b)
      = some (Indicators.pivotOfHLC (Indicators.dailyHigh df dp)
          (Indicators.dailyLow df dp) (Indicators.dailyClose df dp)) := by
  have hsort := List.pairwise_iff_getElem.mp (uniqueSortedDates_sorted df)
  have hnd := uniqueSortedDates_nodup df
  set ds := Indicators.uniqueSortedDates df with hds
  have hmemd : bdate b ∈ ds := (uniqueSortedDates_mem df _).mpr (List.mem_map_of_mem bdate hb)
  have hmemdp : dp ∈ ds := (uniqueSortedDates_mem df _).mpr hdp
  obtain ⟨j, hjlen, hj⟩ := List.mem_iff_getElem.mp hmemd
  obtain ⟨m, hmlen, hm⟩ := List.mem_iff_getElem.mp hmemdp
  have hmj : m < j := by
    rcases Nat.lt_trichotomy m j with h | h | h
    · exact h
    · exfalso; subst h; rw [hj] at hm; omega
    · exfalso; have := hsort j m hjlen hmlen h; rw [hj, hm] at this; omega
  obtain ⟨k, hk⟩ : ∃ k, j = k + 1 := ⟨j - 1, by omega⟩
  have hklen : k < ds.length := by omega
  have hdskb : ds[k] < bdate b := by
    have hle : ds[k] ≤ ds[j] := hsort k j hklen hjlen (by omega)
    have hne : ds[k] ≠ ds[j] := fun he => by
      have := (hnd.getElem_inj_iff).mp he; omega
    rw [hj] at hle hne
    exact lt_of_le_of_ne hle hne
  have h1 : ds[k] ≤ dp := by
    refine hmax _ ?_ hdskb
    exact (uniqueSortedDates_mem df _).mp (List.getElem_mem hklen)
  have h2 : dp ≤ ds[k] := by
    rcases Nat.lt_or_ge m k with h | h
    · have := hsort m k hmlen hklen h; rw [hm] at this; exact this
    · have : m = k := by omega
      subst this; rw [hm]
  have hdsk : ds[k] = dp := le_antisymm h1 h2
  have hfind : findIdxA (fun e => e == bdate b) ds = some (k + 1) := by
    apply findIdxA_of_getElem_nodup ds hnd
    rw [← hk, List.getElem?_eq_getElem hjlen, hj]
  unfold Indicators.attachedPivot
  rw [← hds]
  simp only [hfind]
  rw [List.getD_eq_getElem ds 0 hklen, hdsk]

/-- Witness for C7: session 1 of `dfC7` carries the pivots of session 0. -/
theorem c7_witness :
    Indicators.attachedPivot dfC7 (bdate barC7)
      = some (Indicators.pivotOfHLC (Indicators.dailyHigh dfC7 0)
          (Indicators.dailyLow dfC7 0) (Indicators.dailyClose dfC7 0)) :=
  c7_pivots_from_previous_session dfC7 barC7 (by decide) 0 (by decide) (by decide)
    (by decide)

/-- C8 (code bug): on the single-session series `dfC8`, a freshly
constructed `VWAPPullbackStrategy(max_trades_per_day=3, rr_list=[2,3,4])`
emits 6 signals with timestamps on that day — more than its
`max_trades_per_day = 3`: `self.trade_count` counts qualifying setups, not
emitted trades (each setup appends one signal per rr in `rr_list`), and is
never reset at a session boundary. -/
theorem c8_per_day_cap_violated :
    VWAPStrategy.signalsOnDay (VWAPStrategy.generate_signals 3 [2, 3, 4] dfC8) 0 = 6 ∧
    3 < 6 := by
  constructor
  · norm_num [VWAPStrategy.signalsOnDay, VWAPStrategy.generate_signals,
      VWAPStrategy.vwapLoop, VWAPStrategy.calculate_vwap, VWAPStrategy.cumsum,
      VWAPStrategy.consecPairs, Indicators.tp, dfC8, mkBar, bdate]
  · omega

/-- C9: when the model file is unavailable the AI filter fails open — it
returns decision `TAKE` with the explicit `NO_MODEL` confidence tag (and
its documented 0.55/0.50 placeholders); when the model is available the
trade is taken iff the predicted probability reaches the per-strategy
threshold, and a strategy absent from `STRATEGY_THRESHOLDS` falls back to
the global `DEFAULT_THRESHOLD = 0.5`. -/
theorem c9_fail_open_and_thresholds :
    (∀ s : String, AIFilterV2.ai_filter_v2 none s
      = ⟨AIFilterV2.DecisionT.TAKE, 55/100, 1/2, AIFilterV2.Confidence.NO_MODEL⟩) ∧
    (∀ (p : ℚ) (s : String),
      (AIFilterV2.ai_filter_v2 (some p) s).decision = AIFilterV2.DecisionT.TAKE ↔
        (AIFilterV2.STRATEGY_THRESHOLDS.lookup s).getD AIFilterV2.DEFAULT_THRESHOLD ≤ p) ∧
    (∀ (p : ℚ) (s : String), AIFilterV2.STRATEGY_THRESHOLDS.lookup s = none →
      (AIFilterV2.ai_filter_v2 (some p) s).threshold = AIFilterV2.DEFAULT_THRESHOLD) := by
  refine ⟨fun s => rfl, fun p s => ?_, fun p s h => ?_⟩
  · by_cases hp :
      (AIFilterV2.STRATEGY_THRESHOLDS.lookup s).getD AIFilterV2.DEFAULT_THRESHOLD ≤ p
    · simp [AIFilterV2.ai_filter_v2, ge_iff_le, hp]
    · simp [AIFilterV2.ai_filter_v2, ge_iff_le, hp]
  · simp [AIFilterV2.ai_filter_v2, h]

/-- Witness for C9: fail-open on `"ORB"`, and probability 0.7 against the
default threshold of the unknown strategy name `"UNKNOWN"`. -/
theorem c9_witness :
    AIFilterV2.ai_filter_v2 none "ORB"
      = ⟨AIFilterV2.DecisionT.TAKE, 55/100, 1/2, AIFilterV2.Confidence.NO_MODEL⟩ ∧
    (AIFilterV2.ai_filter_v2 (some (7/10)) "UNKNOWN").decision
      = AIFilterV2.DecisionT.TAKE ∧
    (AIFilterV2.ai_filter_v2 (some (7/10)) "UNKNOWN").threshold
      = AIFilterV2.DEFAULT_THRESHOLD := by
  refine ⟨c9_fail_open_and_thresholds.1 "ORB",
    (c9_fail_open_and_thresholds.2.1 (7/10) "UNKNOWN").mpr ?_,
    c9_fail_open_and_thresholds.2.2 (7/10) "UNKNOWN" ?_⟩
  · have hlk : AIFilterV2.STRATEGY_THRESHOLDS.lookup "UNKNOWN" = none := by decide
    rw [hlk]
    norm_num [AIFilterV2.DEFAULT_THRESHOLD]
  · decide

/-- C10: after `update_live_exits` runs on a frame whose last bar has a
non-None ATR, every trade still in the `active_trades` registry is strictly
on the safe side of its (possibly breakeven- or trailing-adjusted) stop:
the last close is strictly above the stop for a BUY and strictly below it
for a SELL — any violating trade was collected in `to_remove` and deleted
within the same call. -/
theorem c10_survivors_strictly_inside_stop (lastClose a : ℚ)
    (reg : List (String × LiveExit.LTrade)) (k : String) (t : LiveExit.LTrade)
    (h : (k, t) ∈ LiveExit.update_live_exits lastClose (some a) reg) :
    (t.type = TType.BUY → t.stoploss < lastClose) ∧
    (t.type = TType.SELL → lastClose < t.stoploss) := by
  unfold LiveExit.update_live_exits at h
  set processed := reg.map (fun p => (p.1, LiveExit.adjustSL lastClose a p.2)) with hproc
  set toRemove :=
    (processed.filter (fun p => LiveExit.exitCond lastClose p.2)).map Prod.fst with htr
  rw [List.mem_filter] at h
  obtain ⟨hmem, hkeep⟩ := h
  have hnotin : k ∉ toRemove := by
    rw [htr]
    exact of_decide_eq_true hkeep
  have hexit : LiveExit.exitCond lastClose t = false := by
    cases hx : LiveExit.exitCond lastClose t with
    | false => rfl
    | true =>
      exact absurd (List.mem_map.mpr
        ⟨(k, t), List.mem_filter.mpr ⟨hmem, hx⟩, rfl⟩) hnotin
  constructor
  · intro hty
    unfold LiveExit.exitCond at hexit
    rw [hty] at hexit
    simpa [not_le] using hexit
  · intro hty
    unfold LiveExit.exitCond at hexit
    rw [hty] at hexit
    simpa [not_le] using hexit

/-- Witness for C10: the surviving BUY trade of `regC10` after a bar
closing at 105 with ATR 1 — its stop was trailed to 104, strictly below
the close. -/
theorem c10_witness :
    ((⟨"ORB", 100, 104, TType.BUY⟩ : LiveExit.LTrade).stoploss < (105 : ℚ)) :=
  (c10_survivors_strictly_inside_stop 105 1 regC10 "ORB_100"
    ⟨"ORB", 100, 104, TType.BUY⟩ (by
      norm_num [LiveExit.update_live_exits, LiveExit.adjustSL, LiveExit.exitCond,
        regC10, abs_of_nonneg])).1 rfl

end BankNifty
